import Mathlib

/-!
Shallow embedding of the dockstring/dockgym docking pipeline
(src/dockstring/dockstring.py and src/dockgym/dockgym.py).

External collaborators (the RDKit chemistry library, the AutoDock Vina
engine, OpenBabel format conversion, the filesystem) are modelled as
oracle functions passed in as parameters; the repository's own control
flow — stage ordering, error raising and catching, command-line
construction, path computation — is transcribed from the source.

Python exceptions are modelled by `PyError`: the repository's single
error class `DockingError` (carrying its message) plus the other
exception kinds the visible code can raise (`assert` statements raise
`AssertionError`; `scores[0]` on an empty list raises `IndexError`).
-/

namespace DockModel

/-- Exceptions raised by the modelled code: the repository's `DockingError`
(with its message), a bare `assert` failure, and a list-index failure. -/
inductive PyError where
  | dockingError (msg : String)
  | assertionError
  | indexError
deriving DecidableEq, Repr

/-- An RDKit molecule, abstracted to the attributes the pipeline inspects:
an identity for its 2D graph, whether explicit hydrogens are present
(`AddHs`/`RemoveHs`), how many conformers it carries (`GetConformers`),
and — bookkeeping for the embedding model — the random seed that produced
its conformer, if any. -/
structure Mol where
  graphId : Nat
  hasHs : Bool
  numConformers : Nat
  embeddedSeed : Option Int
deriving DecidableEq, Repr

/-- `Chem.AddHs`: adds explicit hydrogens. -/
def AddHs (m : Mol) : Mol := { m with hasHs := true }

/-- `Chem.RemoveHs`: removes explicit hydrogens (conformers are kept). -/
def RemoveHs (m : Mol) : Mol := { m with hasHs := false }

/-- Docking scores are opaque numeric values; the code only selects and
counts them, never computes with them. -/
abbrev Score := Int

/-- Observable calls the pipeline makes to external collaborators, recorded
as a trace: descriptor parsing, embedding, the engine invocation, and the
output-file conversion with the `disable_bonding` argument as passed at the
call site (`none` = the keyword argument was omitted). -/
inductive Event where
  | parseDescriptor (input : String)
  | embedCall (seed : Int)
  | engineRun (cmd : List String)
  | convertPdbqtToPdbCall (pdbqtFile pdbFile : String) (disableBonding : Option Bool)
deriving DecidableEq, Repr

/-- Tries embedding seeds `seed, seed+1, …` for `n` attempts, returning the
first seed for which `ok` succeeds. Helper for the modelled
`Chem.EmbedMolecule` retry loop. -/
def firstEmbedSeed (ok : Int → Bool) (seed : Int) : Nat → Option Int
  | 0 => none
  | n + 1 => if ok seed then some seed else firstEmbedSeed ok (seed + 1) n

theorem firstEmbedSeed_eq_none (ok : Int → Bool) (seed : Int) (n : Nat)
    (h : ∀ i : Nat, i < n → ¬ ok (seed + i)) :
    firstEmbedSeed ok seed n = none := by
  induction n generalizing seed with
  | zero => rfl
  | succ n ih =>
    have h0 : ¬ ok seed := by
      have := h 0 (Nat.succ_pos n)
      simpa using this
    simp only [firstEmbedSeed, h0, if_false]
    exact ih (seed + 1) fun i hi => by
      have := h (i + 1) (Nat.succ_lt_succ hi)
      rw [show seed + 1 + (i : Int) = seed + ((i : Nat) + 1 : Nat) by push_cast; ring]
      exact this

theorem firstEmbedSeed_eq_first (ok : Int → Bool) (seed : Int) (n i : Nat)
    (hin : i < n) (hok : ok (seed + i))
    (hmin : ∀ j : Nat, j < i → ¬ ok (seed + j)) :
    firstEmbedSeed ok seed n = some (seed + i) := by
  induction n generalizing seed i with
  | zero => exact absurd hin (Nat.not_lt_zero i)
  | succ n ih =>
    cases i with
    | zero =>
      have h0 : ok seed := by simpa using hok
      simp [firstEmbedSeed, h0]
    | succ i =>
      have h0 : ¬ ok seed := by
        have := hmin 0 (Nat.succ_pos i)
        simpa using this
      simp only [firstEmbedSeed, h0, if_false]
      have hcast : seed + 1 + (i : Int) = seed + ((i : Nat) + 1 : Nat) := by
        push_cast; ring
      rw [show seed + ((i + 1 : Nat) : Int) = seed + 1 + (i : Int) by push_cast; ring]
      exact ih (seed + 1) i (Nat.lt_of_succ_lt_succ hin) (by rw [hcast]; exact hok)
        fun j hj => by
          have := hmin (j + 1) (Nat.succ_lt_succ hj)
          rw [show seed + 1 + (j : Int) = seed + ((j : Nat) + 1 : Nat) by push_cast; ring]
          exact this

/-- Modelled from the spec: `Chem.EmbedMolecule` (RDKit, an external
Chemistry Library collaborator absent from src). Per the spec's Conformer
Embedder contract it "attempts 3D coordinate generation using
`seed, seed+1, …` up to `max_attempts` tries, stopping at the first
success". `embedOk` is the oracle saying whether embedding a given
molecule with a given seed succeeds; on success the molecule gains one
conformer, on failure it has none. -/
def EmbedMolecule (embedOk : Mol → Int → Bool) (m : Mol) (seed : Int)
    (maxAttempts : Nat) : Mol :=
  match firstEmbedSeed (fun s => embedOk m s) seed maxAttempts with
  | some s => { m with numConformers := 1, embeddedSeed := some s }
  | none => { m with numConformers := 0, embeddedSeed := none }

end DockModel

namespace Dockgym

open DockModel

/-- `Target._smiles_or_inchi_to_mol` (src/dockgym/dockgym.py:49-63):
tries `Chem.MolFromSmiles`, on `None` tries `Chem.MolFromInchi`, and if
both return `None` raises `DockingError('Could not parse SMILES or InChI
string')`. The two RDKit parsers are oracle parameters. -/
def _smiles_or_inchi_to_mol (molFromSmiles molFromInchi : String → Option Mol)
    (smiles_or_inchi : String) : Except PyError Mol :=
  match molFromSmiles smiles_or_inchi with
  | some mol => .ok mol
  | none =>
    match molFromInchi smiles_or_inchi with
    | some mol => .ok mol
    | none => .error (.dockingError "Could not parse SMILES or InChI string")

/-- `Target._embed_mol` (src/dockgym/dockgym.py:65-78): adds hydrogens,
calls `Chem.EmbedMolecule` with the given seed and `max_num_attempts`
(default 10), removes hydrogens, and raises
`DockingError('Generation of ligand conformation failed')` when not a
single conformation was obtained. -/
def _embed_mol (embedOk : Mol → Int → Bool) (mol : Mol) (seed : Int)
    (max_num_attempts : Nat := 10) : Except PyError Mol :=
  let mol₁ := AddHs mol
  let mol₂ := EmbedMolecule embedOk mol₁ seed max_num_attempts
  let mol₃ := RemoveHs mol₂
  if mol₃.numConformers = 0 then
    .error (.dockingError "Generation of ligand conformation failed")
  else
    .ok mol₃

/-- `Target._write_embedded_mol_to_pdb` (src/dockgym/dockgym.py:80-84):
raises `DockingError('For conversion to PDB a conformer is required')`
when the molecule has fewer than one conformer, else writes the PDB file
(a side effect with no modelled return value). -/
def _write_embedded_mol_to_pdb (mol : Mol) : Except PyError Unit :=
  if mol.numConformers < 1 then
    .error (.dockingError "For conversion to PDB a conformer is required")
  else
    .ok ()

/-- The Vina command line built by `Target._dock_pdbqt`
(src/dockgym/dockgym.py:86-99): fixed flags receptor, config, ligand,
log, out, seed, then `--cpu <n>` appended iff `num_cpu is not None`. -/
def cmd_list (vina pdbqt conf ligand_pdbqt vina_logfile vina_outfile : String)
    (seed : Int) (num_cpu : Option Nat) : List String :=
  [vina,
   "--receptor", pdbqt,
   "--config", conf,
   "--ligand", ligand_pdbqt,
   "--log", vina_logfile,
   "--out", vina_outfile,
   "--seed", toString seed] ++
  match num_cpu with
  | some n => ["--cpu", toString n]
  | none => []

/-- The default of the `num_cpu` parameter of `Target.dock` and
`Target._dock_pdbqt` (src/dockgym/dockgym.py:86,112): `num_cpu=1`. -/
def defaultNumCpu : Option Nat := some 1

/-- `Target._dock_pdbqt` (src/dockgym/dockgym.py:86-110): builds the
command, runs the engine once (`subprocess.run`; the second component is
the list of engine invocations made, always exactly one), and raises
`DockingError('Docking with Vina failed')` iff the return code is
nonzero. -/
def _dock_pdbqt (engine : List String → Int)
    (vina pdbqt conf ligand_pdbqt vina_logfile vina_outfile : String)
    (seed : Int) (num_cpu : Option Nat) :
    Except PyError Unit × List (List String) :=
  let cmd := cmd_list vina pdbqt conf ligand_pdbqt vina_logfile vina_outfile seed num_cpu
  (if engine cmd ≠ 0 then .error (.dockingError "Docking with Vina failed")
   else .ok (), [cmd])

end Dockgym

namespace Dockstring

open DockModel

/-- `Target.pdb_path` (src/dockstring/dockstring.py:53-55). -/
def pdb_path (targetsDir name : String) : String :=
  targetsDir ++ "/" ++ name ++ "_target.pdb"

/-- `Target.pdbqt_path` (src/dockstring/dockstring.py:57-59). -/
def pdbqt_path (targetsDir name : String) : String :=
  targetsDir ++ "/" ++ name ++ "_target.pdbqt"

/-- `Target.conf_path` (src/dockstring/dockstring.py:61-63). -/
def conf_path (targetsDir name : String) : String :=
  targetsDir ++ "/" ++ name ++ "_conf.txt"

/-- The mutable attributes of a `Target` that `working_dir` reads and
writes (src/dockstring/dockstring.py:43-44): the custom working dir
given at construction (`None` when absent) and the lazily created
temporary-directory handle. `tmpCounter` feeds the fresh-name allocator
standing in for `tempfile.TemporaryDirectory()`. -/
structure TargetState where
  customWorkingDir : Option String
  tmpDirHandle : Option String
  tmpCounter : Nat
deriving DecidableEq, Repr

/-- A successfully constructed `Target` (src/dockstring/dockstring.py:39-48). -/
structure Target where
  name : String
  state : TargetState
deriving DecidableEq, Repr

/-- `Target.__init__` (src/dockstring/dockstring.py:39-48): stores the name
and working dir, then raises `DockingError("'<name>' is not a supported
target")` unless the target's pdb, pdbqt and conf files all exist
(`fexists` is the filesystem oracle). -/
def Target.init (fexists : String → Bool) (targetsDir name : String)
    (working_dir : Option String) : Except PyError Target :=
  if fexists (pdb_path targetsDir name) &&
     fexists (pdbqt_path targetsDir name) &&
     fexists (conf_path targetsDir name) then
    .ok { name := name,
          state := { customWorkingDir := working_dir, tmpDirHandle := none,
                     tmpCounter := 0 } }
  else
    .error (.dockingError ("'" ++ name ++ "' is not a supported target"))

/-- Python truthiness of `self._custom_working_dir`: `None` and the empty
string are falsy. -/
def truthy : Option String → Bool
  | none => false
  | some s => s ≠ ""

/-- The `working_dir` property (src/dockstring/dockstring.py:65-74): if a
custom working dir is set (truthy), resolve and return it; otherwise
lazily create the temporary directory on first access (`mkTemp` allocates
a fresh directory name) and return the resolved handle path. Returns
the path together with the updated attribute state. -/
def working_dir (mkTemp : Nat → String) (resolve : String → String)
    (st : TargetState) : String × TargetState :=
  if truthy st.customWorkingDir then
    (resolve (st.customWorkingDir.getD ""), st)
  else
    match st.tmpDirHandle with
    | some h => (resolve h, st)
    | none =>
      let h := mkTemp st.tmpCounter
      (resolve h, { st with tmpDirHandle := some h, tmpCounter := st.tmpCounter + 1 })

/-- The five auxiliary file paths `Target.dock` computes
(src/dockstring/dockstring.py:116-121); each line accesses the
`working_dir` property anew. -/
structure DockPaths where
  ligand_pdb : String
  ligand_pdbqt : String
  vina_logfile : String
  vina_outfile : String
  docked_ligand_pdb : String
deriving DecidableEq, Repr

/-- The path-computation prologue of `Target.dock`
(src/dockstring/dockstring.py:116-121): five successive `working_dir`
property accesses, each joined with one file name. -/
def dockPaths (mkTemp : Nat → String) (resolve : String → String)
    (st : TargetState) : DockPaths × TargetState :=
  let r₁ := working_dir mkTemp resolve st
  let r₂ := working_dir mkTemp resolve r₁.2
  let r₃ := working_dir mkTemp resolve r₂.2
  let r₄ := working_dir mkTemp resolve r₃.2
  let r₅ := working_dir mkTemp resolve r₄.2
  ({ ligand_pdb := r₁.1 ++ "/ligand.pdb",
     ligand_pdbqt := r₂.1 ++ "/ligand.pdbqt",
     vina_logfile := r₃.1 ++ "/vina.log",
     vina_outfile := r₄.1 ++ "/vina.out",
     docked_ligand_pdb := r₅.1 ++ "/docked_ligand.pdb" }, r₅.2)

/-- The Vina command line built by `Target._dock_pdbqt`
(src/dockstring/dockstring.py:83-95): fixed flags receptor, config,
ligand, log, out, seed, then `--cpu <n>` appended iff
`num_cpus is not None`. -/
def cmd_list (vina pdbqt conf ligand_pdbqt vina_logfile vina_outfile : String)
    (seed : Int) (num_cpus : Option Nat) : List String :=
  [vina,
   "--receptor", pdbqt,
   "--config", conf,
   "--ligand", ligand_pdbqt,
   "--log", vina_logfile,
   "--out", vina_outfile,
   "--seed", toString seed] ++
  match num_cpus with
  | some n => ["--cpu", toString n]
  | none => []

/-- The default of the `num_cpus` parameter of `Target.dock` and
`Target._dock_pdbqt` (src/dockstring/dockstring.py:81,107): `None`. -/
def defaultNumCpus : Option Nat := none

/-- `Target._dock_pdbqt` (src/dockstring/dockstring.py:76-105): builds the
command, runs the engine once (`subprocess.run`; the second component is
the list of engine invocations made, always exactly one), and raises
`DockingError('Docking with Vina failed')` iff the return code is
nonzero. -/
def _dock_pdbqt (engine : List String → Int)
    (vina pdbqt conf ligand_pdbqt vina_logfile vina_outfile : String)
    (seed : Int) (num_cpus : Option Nat) :
    Except PyError Unit × List (List String) :=
  let cmd := cmd_list vina pdbqt conf ligand_pdbqt vina_logfile vina_outfile seed num_cpus
  (if engine cmd ≠ 0 then .error (.dockingError "Docking with Vina failed")
   else .ok (), [cmd])

/-- The external collaborators `Target.dock` calls
(src/dockstring/dockstring.py:123-155): the `dockstring.utils` chemistry
helpers (absent from src) and the RDKit / engine calls, as oracles.
Fallible ones return `Except String α`, the `String` being the
`DockingError` message they raise with. -/
structure Oracles where
  canonicalize_smiles : String → Except String String
  smiles_to_mol : String → Except String Mol
  sanitize_mol : Mol → Except String Mol
  check_mol : Mol → Except String Unit
  embed_mol : Mol → Int → Except String Mol
  refine_mol_with_ff : Mol → Except String Mol
  protonate_pdb : String → Except String Unit
  read_mol_from_pdb : String → Except String Mol
  convert_pdb_to_pdbqt : String → String → Except String Unit
  engine : List String → Int
  check_vina_output : String → Except String Unit
  convert_pdbqt_to_pdb : String → String → Bool → Except String Unit
  AssignBondOrdersFromTemplate : Mol → Mol → Mol
  verify_docked_ligand : Mol → Mol → Except String Unit
  parse_scores_from_output : String → Except String (List Score)

end Dockstring

namespace Dockstring

open DockModel

/-- Modelled from the spec: `dockstring.utils.write_embedded_mol_to_pdb`
(imported at src/dockstring/dockstring.py:11 but absent from src). Per
spec 4.4A serialization "fails with `SerializationError` if zero
conformers are present"; the dockgym in-src counterpart raises
`DockingError('For conversion to PDB a conformer is required')`. -/
def write_embedded_mol_to_pdb (mol : Mol) : Except PyError Unit :=
  if mol.numConformers < 1 then
    .error (.dockingError "For conversion to PDB a conformer is required")
  else
    .ok ()

/-- The try-block of `Target.dock` (src/dockstring/dockstring.py:123-160):
the stages in source order, short-circuiting on the first raised error.
Returns the Python return value `(scores[0], aux)` — modelled as the
primary score, the score list and the ligand — plus the trace of engine
and conversion calls made. -/
def dockTry (c : Oracles) (p : DockPaths) (vina pdbqt conf : String)
    (smiles : String) (num_cpus : Option Nat) (seed : Int) :
    Except PyError (Score × List Score × Mol) × List Event :=
  match c.canonicalize_smiles smiles with
  | .error m => (.error (.dockingError m), [])
  | .ok canonical_smiles =>
  match c.smiles_to_mol canonical_smiles with
  | .error m => (.error (.dockingError m), [])
  | .ok mol₀ =>
  match c.sanitize_mol mol₀ with
  | .error m => (.error (.dockingError m), [])
  | .ok mol =>
  match c.check_mol mol with
  | .error m => (.error (.dockingError m), [])
  | .ok _ =>
  match c.embed_mol mol seed with
  | .error m => (.error (.dockingError m), [])
  | .ok embedded_mol =>
  match c.refine_mol_with_ff embedded_mol with
  | .error m => (.error (.dockingError m), [])
  | .ok refined_mol =>
  match write_embedded_mol_to_pdb refined_mol with
  | .error e => (.error e, [])
  | .ok _ =>
  match c.protonate_pdb p.ligand_pdb with
  | .error m => (.error (.dockingError m), [])
  | .ok _ =>
  match c.read_mol_from_pdb p.ligand_pdb with
  | .error m => (.error (.dockingError m), [])
  | .ok prepared_mol =>
  match c.convert_pdb_to_pdbqt p.ligand_pdb p.ligand_pdbqt with
  | .error m => (.error (.dockingError m), [])
  | .ok _ =>
  let dockRes := _dock_pdbqt c.engine vina pdbqt conf
      p.ligand_pdbqt p.vina_logfile p.vina_outfile seed num_cpus
  let ev₁ := dockRes.2.map Event.engineRun
  match dockRes.1 with
  | .error e => (.error e, ev₁)
  | .ok _ =>
  match c.check_vina_output p.vina_outfile with
  | .error m => (.error (.dockingError m), ev₁)
  | .ok _ =>
  let ev₂ := ev₁ ++ [Event.convertPdbqtToPdbCall p.vina_outfile p.docked_ligand_pdb (some true)]
  match c.convert_pdbqt_to_pdb p.vina_outfile p.docked_ligand_pdb true with
  | .error m => (.error (.dockingError m), ev₂)
  | .ok _ =>
  match c.read_mol_from_pdb p.docked_ligand_pdb with
  | .error m => (.error (.dockingError m), ev₂)
  | .ok raw_ligand =>
  let ligand := c.AssignBondOrdersFromTemplate prepared_mol raw_ligand
  match c.verify_docked_ligand prepared_mol ligand with
  | .error m => (.error (.dockingError m), ev₂)
  | .ok _ =>
  match c.parse_scores_from_output p.docked_ligand_pdb with
  | .error m => (.error (.dockingError m), ev₂)
  | .ok scores =>
  if scores.length = ligand.numConformers then
    match scores with
    | [] => (.error .indexError, ev₂)
    | s :: _ => (.ok (s, scores, ligand), ev₂)
  else
    (.error .assertionError, ev₂)

/-- What one `Target.dock` call produces: its return value or exception,
the `logging.error` lines emitted, the external-call trace, and the
final attribute state of the target. -/
structure DockOutcome where
  result : Except PyError (Score × List Score × Mol)
  log : List String
  events : List Event
  finalState : TargetState
deriving Repr

/-- The message `Target.dock` logs in its `except DockingError` handler
(src/dockstring/dockstring.py:163), interpolating the raw `smiles`
argument and the error. -/
def logMessage (smiles msg : String) : String :=
  "An error occurred for ligand '" ++ smiles ++ "': " ++ msg

/-- `Target.dock` (src/dockstring/dockstring.py:107-164): computes the five
auxiliary paths via the `working_dir` property, runs the pipeline, and in
`except DockingError` logs the message naming the raw `smiles` argument
and re-raises the same error unchanged (a bare `raise`). Exceptions other
than `DockingError` propagate without being caught or logged. -/
def dock (c : Oracles) (mkTemp : Nat → String) (resolve : String → String)
    (vina targetsDir : String) (t : Target) (smiles : String)
    (num_cpus : Option Nat := defaultNumCpus) (seed : Int := 974528263) :
    DockOutcome :=
  let pr := dockPaths mkTemp resolve t.state
  let r := dockTry c pr.1 vina (pdbqt_path targetsDir t.name)
      (conf_path targetsDir t.name) smiles num_cpus seed
  { result := r.1,
    log := match r.1 with
           | .error (.dockingError m) => [logMessage smiles m]
           | _ => [],
    events := r.2,
    finalState := pr.2 }

end Dockstring

namespace Dockgym

open DockModel

/-- The input to dockgym's `Target.dock` (src/dockgym/dockgym.py:112-115):
either a SMILES/InChI string or an already-built RDKit molecule object
(`isinstance(mol, Chem.Mol)` distinguishes them). -/
inductive MolInput where
  | descriptor (s : String)
  | mol (m : Mol)
deriving DecidableEq, Repr

/-- The external collaborators dockgym's `Target.dock` calls: the RDKit
parsers and serializer, the embedding-success oracle, the `dockgym.utils`
converters and readers (absent from src) and the engine. -/
structure Oracles where
  MolFromSmiles : String → Option Mol
  MolFromInchi : String → Option Mol
  embedOk : Mol → Int → Bool
  MolToSmiles : Mol → String
  convert_pdb_to_pdbqt : String → String → Except String Unit
  engine : List String → Int
  convert_pdbqt_to_pdb : String → String → Except String Unit
  read_pdb_to_mol : String → Except String Mol
  parse_scores_from_pdb : String → Except String (List Score)

/-- The ligand-preparation block of dockgym's `Target.dock`
(src/dockgym/dockgym.py:136-139): when the input is not already a Mol,
parse it and embed it. Returns the prepared molecule (or the error), the
trace, and the value of the Python local `mol` at the end of the block
(the raw string if parsing raised; the parsed molecule if embedding
raised) — the `except` handler reads this local. -/
def prepareLigand (c : Oracles) (input : MolInput) (seed : Int) :
    Except PyError Mol × List Event × (String ⊕ Mol) :=
  match input with
  | .mol m => (.ok m, [], .inr m)
  | .descriptor s =>
    match _smiles_or_inchi_to_mol c.MolFromSmiles c.MolFromInchi s with
    | .error e => (.error e, [.parseDescriptor s], .inl s)
    | .ok m =>
      match _embed_mol c.embedOk m seed with
      | .error e => (.error e, [.parseDescriptor s, .embedCall seed], .inr m)
      | .ok m₂ => (.ok m₂, [.parseDescriptor s, .embedCall seed], .inr m₂)

/-- The rest of the try-block of dockgym's `Target.dock`
(src/dockgym/dockgym.py:141-158): write the ligand PDB, convert to PDBQT,
dock, convert the output back (without the `disable_bonding` argument),
read poses and scores, assert the counts match, return `(scores[0], aux)`. -/
def dockRest (c : Oracles)
    (ligand_pdb ligand_pdbqt vina_logfile vina_outfile vina_pdb_file : String)
    (vina pdbqt conf : String) (mol : Mol) (num_cpu : Option Nat) (seed : Int) :
    Except PyError (Score × List Score × Mol) × List Event :=
  match _write_embedded_mol_to_pdb mol with
  | .error e => (.error e, [])
  | .ok _ =>
  match c.convert_pdb_to_pdbqt ligand_pdb ligand_pdbqt with
  | .error m => (.error (.dockingError m), [])
  | .ok _ =>
  let dockRes := _dock_pdbqt c.engine vina pdbqt conf
      ligand_pdbqt vina_logfile vina_outfile seed num_cpu
  let ev₁ := dockRes.2.map Event.engineRun
  match dockRes.1 with
  | .error e => (.error e, ev₁)
  | .ok _ =>
  let ev₂ := ev₁ ++ [Event.convertPdbqtToPdbCall vina_outfile vina_pdb_file none]
  match c.convert_pdbqt_to_pdb vina_outfile vina_pdb_file with
  | .error m => (.error (.dockingError m), ev₂)
  | .ok _ =>
  match c.read_pdb_to_mol vina_pdb_file with
  | .error m => (.error (.dockingError m), ev₂)
  | .ok ligands =>
  match c.parse_scores_from_pdb vina_pdb_file with
  | .error m => (.error (.dockingError m), ev₂)
  | .ok scores =>
  if scores.length = ligands.numConformers then
    match scores with
    | [] => (.error .indexError, ev₂)
    | s :: _ => (.ok (s, scores, ligands), ev₂)
  else
    (.error .assertionError, ev₂)

/-- The `except DockingError` handler of dockgym's `Target.dock`
(src/dockgym/dockgym.py:160-162): wraps a `DockingError` in a new
`DockingError` whose message names `Chem.MolToSmiles(mol)` when the local
`mol` holds a Mol object and the raw input string otherwise; other
exceptions are not caught. -/
def wrapError (c : Oracles) (molVar : String ⊕ Mol) : PyError → PyError
  | .dockingError m =>
    let mol_id := match molVar with
      | .inl s => s
      | .inr mol => c.MolToSmiles mol
    .dockingError ("An error occurred for ligand '" ++ mol_id ++ "': " ++ m)
  | e => e

/-- dockgym's `Target.dock` (src/dockgym/dockgym.py:112-162): computes the
five auxiliary paths in the construction-time temporary directory, skips
parsing and embedding when the input is already a Mol, runs the remaining
stages, and wraps any `DockingError` via the handler. Returns the result
(or exception) and the external-call trace. -/
def dock (c : Oracles) (tmpDir vina pdbqt conf : String) (input : MolInput)
    (num_cpu : Option Nat := defaultNumCpu) (seed : Int := 974528263) :
    Except PyError (Score × List Score × Mol) × List Event :=
  let ligand_pdb := tmpDir ++ "/ligand.pdb"
  let ligand_pdbqt := tmpDir ++ "/ligand.pdbqt"
  let vina_logfile := tmpDir ++ "/vina.log"
  let vina_outfile := tmpDir ++ "/vina.out"
  let vina_pdb_file := tmpDir ++ "/vina.pdb"
  let prep := prepareLigand c input seed
  match prep.1 with
  | .error e => (.error (wrapError c prep.2.2 e), prep.2.1)
  | .ok mol =>
    let rest := dockRest c ligand_pdb ligand_pdbqt vina_logfile vina_outfile
        vina_pdb_file vina pdbqt conf mol num_cpu seed
    let result : Except PyError (Score × List Score × Mol) :=
      match rest.1 with
      | .error e => .error (wrapError c (.inr mol) e)
      | .ok v => .ok v
    (result, prep.2.1 ++ rest.2)

end Dockgym

namespace Dockgym

/-- Receptor coordinate file path set in dockgym's `Target.__init__`
(src/dockgym/dockgym.py:33). -/
def receptor_pdb (receptorsDir name : String) : String :=
  receptorsDir ++ "/" ++ name ++ "_receptor.pdb"

/-- Receptor docking-format file path set in dockgym's `Target.__init__`
(src/dockgym/dockgym.py:34). -/
def receptor_pdbqt (receptorsDir name : String) : String :=
  receptorsDir ++ "/" ++ name ++ "_receptor.pdbqt"

/-- Search-box configuration file path set in dockgym's `Target.__init__`
(src/dockgym/dockgym.py:35). -/
def conf_file (receptorsDir name : String) : String :=
  receptorsDir ++ "/" ++ name ++ "_conf.txt"

/-- The existence check of dockgym's `Target.__init__`
(src/dockgym/dockgym.py:37-39): raises `DockingError("'<name>' is not a
target we support")` unless the temporary dir and the three receptor
resource files all exist. -/
def Target_init (fexists : String → Bool) (receptorsDir tmpDir name : String) :
    Except DockModel.PyError Unit :=
  if fexists tmpDir && fexists (receptor_pdb receptorsDir name) &&
     fexists (receptor_pdbqt receptorsDir name) && fexists (conf_file receptorsDir name) then
    .ok ()
  else
    .error (.dockingError ("'" ++ name ++ "' is not a target we support"))

end Dockgym

open DockModel

/-- C7: the normalizer tries the SMILES parser first (its success decides the
result regardless of the InChI parser), falls back to the InChI parser only
when SMILES parsing fails, raises the parse `DockingError` iff neither
dialect parses, and yields a molecule without error iff either parses. -/
theorem C7_smiles_then_inchi_parse (pS pI : String → Option Mol) (s : String) :
    (∀ m : Mol, pS s = some m → Dockgym._smiles_or_inchi_to_mol pS pI s = .ok m)
  ∧ (∀ m : Mol, pS s = none → pI s = some m →
      Dockgym._smiles_or_inchi_to_mol pS pI s = .ok m)
  ∧ (pS s = none → pI s = none →
      Dockgym._smiles_or_inchi_to_mol pS pI s =
        .error (.dockingError "Could not parse SMILES or InChI string"))
  ∧ ((∃ m : Mol, Dockgym._smiles_or_inchi_to_mol pS pI s = .ok m) ↔
      (pS s).isSome ∨ (pI s).isSome) := by
  refine ⟨fun m hm => ?_, fun m h1 h2 => ?_, fun h1 h2 => ?_, ?_⟩
  · simp [Dockgym._smiles_or_inchi_to_mol, hm]
  · simp [Dockgym._smiles_or_inchi_to_mol, h1, h2]
  · simp [Dockgym._smiles_or_inchi_to_mol, h1, h2]
  · cases hS : pS s <;> cases hI : pI s <;>
      simp [Dockgym._smiles_or_inchi_to_mol, hS, hI]

/-- Witness for C7: on a string neither parser accepts, the normalizer
raises the parse error. -/
theorem C7_smiles_then_inchi_parse_witness :
    Dockgym._smiles_or_inchi_to_mol (fun _ => none) (fun _ => none) "not a molecule" =
      .error (.dockingError "Could not parse SMILES or InChI string") :=
  (C7_smiles_then_inchi_parse (fun _ => none) (fun _ => none) "not a molecule").2.2.1 rfl rfl

/-- C2: the embedder adds explicit hydrogens (the embedding oracle is
consulted on `AddHs mol`), tries seeds `seed, seed+1, …` for up to
`max_attempts` attempts stopping at the first that succeeds (the conformer
carries the first successful seed), removes the hydrogens from the returned
molecule, and raises the embedding `DockingError` when no attempt
produces a conformer. -/
theorem C2_embed_mol_retry_by_seed (embedOk : Mol → Int → Bool) (mol : Mol)
    (seed : Int) (max_attempts : Nat) :
    ((∀ i : Nat, i < max_attempts → ¬ embedOk (AddHs mol) (seed + i)) →
      Dockgym._embed_mol embedOk mol seed max_attempts =
        .error (.dockingError "Generation of ligand conformation failed"))
  ∧ (∀ i : Nat, i < max_attempts → embedOk (AddHs mol) (seed + i) →
      (∀ j : Nat, j < i → ¬ embedOk (AddHs mol) (seed + j)) →
      Dockgym._embed_mol embedOk mol seed max_attempts =
        .ok { mol with hasHs := false, numConformers := 1, embeddedSeed := some (seed + i) }) := by
  obtain ⟨g, hh, nc, es⟩ := mol
  constructor
  · intro h
    have hf : firstEmbedSeed (fun s => embedOk (AddHs ⟨g, hh, nc, es⟩) s) seed max_attempts = none :=
      firstEmbedSeed_eq_none _ _ _ h
    simp only [AddHs] at hf
    simp [Dockgym._embed_mol, EmbedMolecule, RemoveHs, AddHs, hf]
  · intro i hin hok hmin
    have hf : firstEmbedSeed (fun s => embedOk (AddHs ⟨g, hh, nc, es⟩) s) seed max_attempts =
        some (seed + i) :=
      firstEmbedSeed_eq_first _ _ _ _ hin hok hmin
    simp only [AddHs] at hf
    simp [Dockgym._embed_mol, EmbedMolecule, RemoveHs, AddHs, hf]

/-- Witness for C2: with an oracle succeeding only at seed 5, embedding
from seed 3 with 10 attempts succeeds at the third try (seed 5), returning
a hydrogen-free molecule with one conformer. -/
theorem C2_embed_mol_retry_by_seed_witness :
    Dockgym._embed_mol (fun _ s => s == 5)
        { graphId := 7, hasHs := false, numConformers := 0, embeddedSeed := none } 3 10 =
      .ok { graphId := 7, hasHs := false, numConformers := 1, embeddedSeed := some 5 } := by
  have h := (C2_embed_mol_retry_by_seed (fun _ s => s == 5)
      { graphId := 7, hasHs := false, numConformers := 0, embeddedSeed := none } 3 10).2
      2 (by decide) (by decide) (by decide)
  simpa using h

/-- C6: for both variants, `_dock_pdbqt` raises
`DockingError('Docking with Vina failed')` iff the engine process exits
nonzero, returns normally iff it exits zero, and invokes the engine
exactly once (no automatic retry). -/
theorem C6_engine_error_iff_nonzero_exit (engine : List String → Int)
    (vina pdbqt conf ligand logf outf : String) (seed : Int) (ncpu : Option Nat) :
    ((Dockstring._dock_pdbqt engine vina pdbqt conf ligand logf outf seed ncpu).1 =
        .error (.dockingError "Docking with Vina failed") ↔
      engine (Dockstring.cmd_list vina pdbqt conf ligand logf outf seed ncpu) ≠ 0)
  ∧ ((Dockstring._dock_pdbqt engine vina pdbqt conf ligand logf outf seed ncpu).1 = .ok () ↔
      engine (Dockstring.cmd_list vina pdbqt conf ligand logf outf seed ncpu) = 0)
  ∧ (Dockstring._dock_pdbqt engine vina pdbqt conf ligand logf outf seed ncpu).2 =
      [Dockstring.cmd_list vina pdbqt conf ligand logf outf seed ncpu]
  ∧ ((Dockgym._dock_pdbqt engine vina pdbqt conf ligand logf outf seed ncpu).1 =
        .error (.dockingError "Docking with Vina failed") ↔
      engine (Dockgym.cmd_list vina pdbqt conf ligand logf outf seed ncpu) ≠ 0)
  ∧ ((Dockgym._dock_pdbqt engine vina pdbqt conf ligand logf outf seed ncpu).1 = .ok () ↔
      engine (Dockgym.cmd_list vina pdbqt conf ligand logf outf seed ncpu) = 0)
  ∧ (Dockgym._dock_pdbqt engine vina pdbqt conf ligand logf outf seed ncpu).2 =
      [Dockgym.cmd_list vina pdbqt conf ligand logf outf seed ncpu] := by
  by_cases h1 : engine (Dockstring.cmd_list vina pdbqt conf ligand logf outf seed ncpu) = 0 <;>
    by_cases h2 : engine (Dockgym.cmd_list vina pdbqt conf ligand logf outf seed ncpu) = 0 <;>
      simp [Dockstring._dock_pdbqt, Dockgym._dock_pdbqt, h1, h2]

/-- C8: dockstring's `Target.__init__` raises the unsupported-target
`DockingError` iff the receptor pdb, receptor pdbqt and search-box conf
files are not all present, and any successfully constructed `Target` has
all three; likewise for dockgym's constructor check (which additionally
requires the freshly created temporary directory to exist). -/
theorem C8_target_ctor_requires_resources (fexists : String → Bool)
    (targetsDir receptorsDir tmpDir name : String) (wd : Option String) :
    (Dockstring.Target.init fexists targetsDir name wd =
        .error (.dockingError ("'" ++ name ++ "' is not a supported target")) ↔
      ¬ (fexists (Dockstring.pdb_path targetsDir name) ∧
         fexists (Dockstring.pdbqt_path targetsDir name) ∧
         fexists (Dockstring.conf_path targetsDir name)))
  ∧ (∀ t : Dockstring.Target, Dockstring.Target.init fexists targetsDir name wd = .ok t →
      fexists (Dockstring.pdb_path targetsDir name) ∧
      fexists (Dockstring.pdbqt_path targetsDir name) ∧
      fexists (Dockstring.conf_path targetsDir name))
  ∧ (¬ (fexists (Dockgym.receptor_pdb receptorsDir name) ∧
        fexists (Dockgym.receptor_pdbqt receptorsDir name) ∧
        fexists (Dockgym.conf_file receptorsDir name)) →
      Dockgym.Target_init fexists receptorsDir tmpDir name =
        .error (.dockingError ("'" ++ name ++ "' is not a target we support")))
  ∧ (Dockgym.Target_init fexists receptorsDir tmpDir name = .ok () →
      fexists (Dockgym.receptor_pdb receptorsDir name) ∧
      fexists (Dockgym.receptor_pdbqt receptorsDir name) ∧
      fexists (Dockgym.conf_file receptorsDir name)) := by
  refine ⟨?_, ?_, ?_, ?_⟩
  · by_cases h1 : fexists (Dockstring.pdb_path targetsDir name) = true <;>
      by_cases h2 : fexists (Dockstring.pdbqt_path targetsDir name) = true <;>
        by_cases h3 : fexists (Dockstring.conf_path targetsDir name) = true <;>
          simp [Dockstring.Target.init, h1, h2, h3]
  · intro t ht
    by_cases h1 : fexists (Dockstring.pdb_path targetsDir name) = true <;>
      by_cases h2 : fexists (Dockstring.pdbqt_path targetsDir name) = true <;>
        by_cases h3 : fexists (Dockstring.conf_path targetsDir name) = true <;>
          simp_all [Dockstring.Target.init]
  · intro h
    by_cases h0 : fexists tmpDir = true <;>
      by_cases h1 : fexists (Dockgym.receptor_pdb receptorsDir name) = true <;>
        by_cases h2 : fexists (Dockgym.receptor_pdbqt receptorsDir name) = true <;>
          by_cases h3 : fexists (Dockgym.conf_file receptorsDir name) = true <;>
            simp_all [Dockgym.Target_init]
  · intro ht
    by_cases h0 : fexists tmpDir = true <;>
      by_cases h1 : fexists (Dockgym.receptor_pdb receptorsDir name) = true <;>
        by_cases h2 : fexists (Dockgym.receptor_pdbqt receptorsDir name) = true <;>
          by_cases h3 : fexists (Dockgym.conf_file receptorsDir name) = true <;>
            simp_all [Dockgym.Target_init]

/-- Witness for C8: with all files present, construction succeeds and the
three dockstring resources (and the three dockgym resources) exist. -/
theorem C8_target_ctor_requires_resources_witness :
    ((fun _ : String => true) (Dockstring.pdb_path "td" "abl1") ∧
     (fun _ : String => true) (Dockstring.pdbqt_path "td" "abl1") ∧
     (fun _ : String => true) (Dockstring.conf_path "td" "abl1")) ∧
    ((fun _ : String => true) (Dockgym.receptor_pdb "rd" "abl1") ∧
     (fun _ : String => true) (Dockgym.receptor_pdbqt "rd" "abl1") ∧
     (fun _ : String => true) (Dockgym.conf_file "rd" "abl1")) :=
  ⟨(C8_target_ctor_requires_resources (fun _ => true) "td" "rd" "/tmp/x" "abl1" none).2.1
      { name := "abl1",
        state := { customWorkingDir := none, tmpDirHandle := none, tmpCounter := 0 } } rfl,
   (C8_target_ctor_requires_resources (fun _ => true) "td" "rd" "/tmp/x" "abl1" none).2.2.2 rfl⟩

/-- C5 counterexample: in the dockgym variant the `num_cpu` parameter
defaults to `1`, so a caller who leaves the cpu argument at its default
still gets `--cpu` on the engine command line — the cpu flag is not
passed "iff the caller explicitly provided a cpu count". -/
theorem C5_counterexample :
    Dockgym.defaultNumCpu = some 1 ∧
    "--cpu" ∈ Dockgym.cmd_list "vina" "r.pdbqt" "conf.txt" "l.pdbqt" "v.log" "v.out"
        974528263 Dockgym.defaultNumCpu := by
  refine ⟨rfl, ?_⟩
  simp [Dockgym.cmd_list, Dockgym.defaultNumCpu]

/-- C5 (amended): both variants put exactly the fixed flags plus an
optional cpu pair on the command line, with `--cpu` present iff the cpu
argument is not `None`; dockstring's default is `None` (no cpu flag at
default, engine default applies), while dockgym's default is `1`, so at
default dockgym does pass `--cpu 1`. -/
theorem C5_cpu_flag_iff_provided (vina pdbqt conf ligand logf outf : String) (seed : Int)
    (hargs : "--cpu" ∉ ([vina, pdbqt, conf, ligand, logf, outf, toString seed] : List String)) :
    (∀ ncpus : Option Nat,
      "--cpu" ∈ Dockstring.cmd_list vina pdbqt conf ligand logf outf seed ncpus ↔ ncpus ≠ none)
  ∧ Dockstring.defaultNumCpus = none
  ∧ "--cpu" ∉ Dockstring.cmd_list vina pdbqt conf ligand logf outf seed Dockstring.defaultNumCpus
  ∧ (∀ ncpu : Option Nat,
      "--cpu" ∈ Dockgym.cmd_list vina pdbqt conf ligand logf outf seed ncpu ↔ ncpu ≠ none)
  ∧ Dockgym.defaultNumCpu = some 1
  ∧ "--cpu" ∈ Dockgym.cmd_list vina pdbqt conf ligand logf outf seed Dockgym.defaultNumCpu := by
  simp only [List.mem_cons, List.not_mem_nil, not_or, or_false] at hargs
  obtain ⟨h1, h2, h3, h4, h5, h6, h7⟩ := hargs
  have hds : ∀ ncpus : Option Nat,
      "--cpu" ∈ Dockstring.cmd_list vina pdbqt conf ligand logf outf seed ncpus ↔ ncpus ≠ none := by
    intro ncpus
    cases ncpus <;> simp [Dockstring.cmd_list, h1, h2, h3, h4, h5, h6, h7]
  have hgym : ∀ ncpu : Option Nat,
      "--cpu" ∈ Dockgym.cmd_list vina pdbqt conf ligand logf outf seed ncpu ↔ ncpu ≠ none := by
    intro ncpu
    cases ncpu <;> simp [Dockgym.cmd_list, h1, h2, h3, h4, h5, h6, h7]
  refine ⟨hds, rfl, ?_, hgym, rfl, ?_⟩
  · rw [hds]
    simp [Dockstring.defaultNumCpus]
  · rw [hgym]
    simp [Dockgym.defaultNumCpu]

/-- Witness for C5's amended statement: at the defaults, dockstring's
command line has no `--cpu` while dockgym's does. -/
theorem C5_cpu_flag_iff_provided_witness :
    "--cpu" ∉ Dockstring.cmd_list "vina" "r.pdbqt" "conf.txt" "l.pdbqt" "v.log" "v.out"
        974528263 Dockstring.defaultNumCpus ∧
    "--cpu" ∈ Dockgym.cmd_list "vina" "r.pdbqt" "conf.txt" "l.pdbqt" "v.log" "v.out"
        974528263 Dockgym.defaultNumCpu :=
  ⟨(C5_cpu_flag_iff_provided "vina" "r.pdbqt" "conf.txt" "l.pdbqt" "v.log" "v.out"
      974528263 (by decide)).2.2.1,
   (C5_cpu_flag_iff_provided "vina" "r.pdbqt" "conf.txt" "l.pdbqt" "v.log" "v.out"
      974528263 (by decide)).2.2.2.2.2⟩

/-- C9: for a dockstring `Target` with no custom working directory, the
first `working_dir` access creates the temporary directory and stores the
handle; every access with the handle set returns the same resolved path
and leaves the state unchanged; `dock`'s five intermediate files all live
in that one directory; a second `dock` path computation reuses the same
directory; and `dock` itself leaves the handle exactly as the first
access set it (it never deletes or recreates the directory). -/
theorem C9_working_dir_lazy_and_stable (mkTemp : Nat → String) (resolve : String → String)
    (ctr : Nat) (c : Dockstring.Oracles) (vina targetsDir name smiles : String)
    (ncpus : Option Nat) (seed : Int) :
    Dockstring.working_dir mkTemp resolve ⟨none, none, ctr⟩ =
        (resolve (mkTemp ctr), ⟨none, some (mkTemp ctr), ctr + 1⟩)
  ∧ (∀ (st : Dockstring.TargetState) (hdl : String), st.customWorkingDir = none →
      st.tmpDirHandle = some hdl →
      Dockstring.working_dir mkTemp resolve st = (resolve hdl, st))
  ∧ Dockstring.dockPaths mkTemp resolve ⟨none, none, ctr⟩ =
      ({ ligand_pdb := resolve (mkTemp ctr) ++ "/ligand.pdb",
         ligand_pdbqt := resolve (mkTemp ctr) ++ "/ligand.pdbqt",
         vina_logfile := resolve (mkTemp ctr) ++ "/vina.log",
         vina_outfile := resolve (mkTemp ctr) ++ "/vina.out",
         docked_ligand_pdb := resolve (mkTemp ctr) ++ "/docked_ligand.pdb" },
       ⟨none, some (mkTemp ctr), ctr + 1⟩)
  ∧ Dockstring.dockPaths mkTemp resolve ⟨none, some (mkTemp ctr), ctr + 1⟩ =
      ({ ligand_pdb := resolve (mkTemp ctr) ++ "/ligand.pdb",
         ligand_pdbqt := resolve (mkTemp ctr) ++ "/ligand.pdbqt",
         vina_logfile := resolve (mkTemp ctr) ++ "/vina.log",
         vina_outfile := resolve (mkTemp ctr) ++ "/vina.out",
         docked_ligand_pdb := resolve (mkTemp ctr) ++ "/docked_ligand.pdb" },
       ⟨none, some (mkTemp ctr), ctr + 1⟩)
  ∧ (Dockstring.dock c mkTemp resolve vina targetsDir ⟨name, ⟨none, none, ctr⟩⟩
        smiles ncpus seed).finalState = ⟨none, some (mkTemp ctr), ctr + 1⟩ := by
  refine ⟨rfl, ?_, rfl, rfl, rfl⟩
  intro st hdl hcust hhdl
  obtain ⟨cw, th, tc⟩ := st
  simp only at hcust hhdl
  subst hcust hhdl
  rfl

/-- Witness for C9: a concrete second access with the handle already set
returns the same directory and leaves the state untouched. -/
theorem C9_working_dir_lazy_and_stable_witness :
    Dockstring.working_dir (fun n => "/tmp/dock" ++ toString n) id
        ⟨none, some "/tmp/dock0", 1⟩ = ("/tmp/dock0", ⟨none, some "/tmp/dock0", 1⟩) :=
  (C9_working_dir_lazy_and_stable (fun n => "/tmp/dock" ++ toString n) id 0
      { canonicalize_smiles := fun _ => .error "unused"
        smiles_to_mol := fun _ => .error "unused"
        sanitize_mol := fun _ => .error "unused"
        check_mol := fun _ => .error "unused"
        embed_mol := fun _ _ => .error "unused"
        refine_mol_with_ff := fun _ => .error "unused"
        protonate_pdb := fun _ => .error "unused"
        read_mol_from_pdb := fun _ => .error "unused"
        convert_pdb_to_pdbqt := fun _ _ => .error "unused"
        engine := fun _ => 1
        check_vina_output := fun _ => .error "unused"
        convert_pdbqt_to_pdb := fun _ _ _ => .error "unused"
        AssignBondOrdersFromTemplate := fun _ m => m
        verify_docked_ligand := fun _ _ => .error "unused"
        parse_scores_from_output := fun _ => .error "unused" }
      "vina" "targets" "abl1" "CCO" none 974528263).2.1
    ⟨none, some "/tmp/dock0", 1⟩ "/tmp/dock0" rfl rfl

/-- C10: when dockgym's `dock` receives an already-built Mol, the parsing
and embedding stages are skipped (the preparation step returns the
molecule as-is with an empty trace), and a Mol carrying no conformer
fails at the PDB-writing step with the zero-conformer `DockingError`
(wrapped by the handler, which names the molecule via `MolToSmiles`)
without any parse or embed call ever being made. -/
theorem C10_mol_input_skips_parse_and_embed (c : Dockgym.Oracles)
    (tmpDir vina pdbqt conf : String) (m : Mol) (ncpu : Option Nat) (seed : Int)
    (h : m.numConformers = 0) :
    Dockgym.prepareLigand c (.mol m) seed = (.ok m, [], .inr m)
  ∧ (Dockgym.dock c tmpDir vina pdbqt conf (.mol m) ncpu seed).1 =
      .error (.dockingError ("An error occurred for ligand '" ++ c.MolToSmiles m ++
        "': " ++ "For conversion to PDB a conformer is required"))
  ∧ (Dockgym.dock c tmpDir vina pdbqt conf (.mol m) ncpu seed).2 = [] := by
  refine ⟨rfl, ?_, ?_⟩ <;>
    simp [Dockgym.dock, Dockgym.prepareLigand, Dockgym.dockRest,
          Dockgym._write_embedded_mol_to_pdb, Dockgym.wrapError, h]

/-- A concrete dockgym collaborator bundle where every external call
succeeds: parsing yields a molecule, embedding succeeds at the first
seed, the engine exits 0, and reading the output yields `nconf` poses
with the given scores. -/
def gymOkOracles (scores : List Score) (nconf : Nat) : Dockgym.Oracles where
  MolFromSmiles := fun _ => some ⟨1, false, 0, none⟩
  MolFromInchi := fun _ => none
  embedOk := fun _ _ => true
  MolToSmiles := fun _ => "CCO"
  convert_pdb_to_pdbqt := fun _ _ => .ok ()
  engine := fun _ => 0
  convert_pdbqt_to_pdb := fun _ _ => .ok ()
  read_pdb_to_mol := fun _ => .ok ⟨2, false, nconf, none⟩
  parse_scores_from_pdb := fun _ => .ok scores

/-- Witness for C10: a conformer-less Mol input fails with the wrapped
zero-conformer error and an empty external-call trace. -/
theorem C10_mol_input_skips_parse_and_embed_witness :
    (Dockgym.dock (gymOkOracles [-5] 1) "/tmp/d" "vina" "r.pdbqt" "conf.txt"
        (.mol ⟨9, false, 0, none⟩) (some 1) 974528263).1 =
      .error (.dockingError
        "An error occurred for ligand 'CCO': For conversion to PDB a conformer is required") ∧
    (Dockgym.dock (gymOkOracles [-5] 1) "/tmp/d" "vina" "r.pdbqt" "conf.txt"
        (.mol ⟨9, false, 0, none⟩) (some 1) 974528263).2 = [] :=
  ⟨(C10_mol_input_skips_parse_and_embed (gymOkOracles [-5] 1) "/tmp/d" "vina" "r.pdbqt"
      "conf.txt" ⟨9, false, 0, none⟩ (some 1) 974528263 rfl).2.1,
   (C10_mol_input_skips_parse_and_embed (gymOkOracles [-5] 1) "/tmp/d" "vina" "r.pdbqt"
      "conf.txt" ⟨9, false, 0, none⟩ (some 1) 974528263 rfl).2.2⟩

/-- The event trace of dockstring's pipeline is one of: empty (failure
before the engine ran), just the engine invocation, or the engine
invocation followed by the output conversion with `disable_bonding=True`. -/
theorem dockstring_dockTry_events_cases (c : Dockstring.Oracles) (p : Dockstring.DockPaths)
    (vina pdbqt conf smiles : String) (ncpus : Option Nat) (seed : Int) :
    (Dockstring.dockTry c p vina pdbqt conf smiles ncpus seed).2 = [] ∨
    (Dockstring.dockTry c p vina pdbqt conf smiles ncpus seed).2 =
      [Event.engineRun (Dockstring.cmd_list vina pdbqt conf p.ligand_pdbqt
        p.vina_logfile p.vina_outfile seed ncpus)] ∨
    (Dockstring.dockTry c p vina pdbqt conf smiles ncpus seed).2 =
      [Event.engineRun (Dockstring.cmd_list vina pdbqt conf p.ligand_pdbqt
        p.vina_logfile p.vina_outfile seed ncpus),
       Event.convertPdbqtToPdbCall p.vina_outfile p.docked_ligand_pdb (some true)] := by
  simp only [Dockstring.dockTry, Dockstring._dock_pdbqt]
  repeat' split
  all_goals simp

/-- Dockgym's ligand-preparation block makes no output-conversion call. -/
theorem dockgym_prepareLigand_no_convert (cg : Dockgym.Oracles)
    (input : Dockgym.MolInput) (seed : Int) (q f : String) (b : Option Bool) :
    Event.convertPdbqtToPdbCall q f b ∉ (Dockgym.prepareLigand cg input seed).2.1 := by
  intro hb
  simp only [Dockgym.prepareLigand] at hb
  repeat' split at hb
  all_goals simp_all

/-- Any output-conversion call in dockgym's post-preparation stages omits
the `disable_bonding` argument. -/
theorem dockgym_dockRest_convert_omits_bonding (cg : Dockgym.Oracles)
    (ligand_pdb ligand_pdbqt vina_logfile vina_outfile vina_pdb_file : String)
    (vina pdbqt conf : String) (mol : Mol) (ncpu : Option Nat) (seed : Int)
    (q f : String) (b : Option Bool)
    (hb : Event.convertPdbqtToPdbCall q f b ∈
      (Dockgym.dockRest cg ligand_pdb ligand_pdbqt vina_logfile vina_outfile
        vina_pdb_file vina pdbqt conf mol ncpu seed).2) :
    b = none := by
  simp only [Dockgym.dockRest, Dockgym._dock_pdbqt] at hb
  repeat' split at hb
  all_goals simp_all

/-- C3 counterexample: a concrete dockgym run that reaches result
processing converts the engine output without setting `disable_bonding`
(the keyword argument is omitted at src/dockgym/dockgym.py:149). -/
theorem C3_counterexample :
    (Dockgym.dock (gymOkOracles [-5] 1) "/tmp/d" "vina" "r.pdbqt" "conf.txt"
        (.descriptor "CCO") (some 1) 974528263).2.getLast? =
      some (Event.convertPdbqtToPdbCall "/tmp/d/vina.out" "/tmp/d/vina.pdb" none) := rfl

/-- C3 (amended): in the dockstring variant every output conversion in a
dock run passes `disable_bonding=True`, but in the dockgym variant every
such conversion omits the `disable_bonding` argument, leaving the
converter's own default bond perception. -/
theorem C3_output_conversion_bonding (c : Dockstring.Oracles) (cg : Dockgym.Oracles)
    (mkTemp : Nat → String) (resolve : String → String)
    (vina targetsDir : String) (t : Dockstring.Target) (smiles : String)
    (ncpus : Option Nat) (seed : Int)
    (tmpDir vinaG pdbqtG confG : String) (input : Dockgym.MolInput)
    (ncpu : Option Nat) (seedG : Int) :
    (∀ (q f : String) (b : Option Bool), Event.convertPdbqtToPdbCall q f b ∈
        (Dockstring.dock c mkTemp resolve vina targetsDir t smiles ncpus seed).events →
      b = some true)
  ∧ (∀ (q f : String) (b : Option Bool), Event.convertPdbqtToPdbCall q f b ∈
        (Dockgym.dock cg tmpDir vinaG pdbqtG confG input ncpu seedG).2 →
      b = none) := by
  constructor
  · intro q f b hb
    have hev : (Dockstring.dock c mkTemp resolve vina targetsDir t smiles ncpus seed).events =
        (Dockstring.dockTry c (Dockstring.dockPaths mkTemp resolve t.state).1 vina
          (Dockstring.pdbqt_path targetsDir t.name) (Dockstring.conf_path targetsDir t.name)
          smiles ncpus seed).2 := rfl
    rw [hev] at hb
    rcases dockstring_dockTry_events_cases c (Dockstring.dockPaths mkTemp resolve t.state).1
        vina (Dockstring.pdbqt_path targetsDir t.name) (Dockstring.conf_path targetsDir t.name)
        smiles ncpus seed with hc | hc | hc <;> rw [hc] at hb <;> simp_all
  · intro q f b hb
    have hd : (Dockgym.dock cg tmpDir vinaG pdbqtG confG input ncpu seedG).2 =
        (Dockgym.prepareLigand cg input seedG).2.1 ∨
        ∃ mol, (Dockgym.dock cg tmpDir vinaG pdbqtG confG input ncpu seedG).2 =
          (Dockgym.prepareLigand cg input seedG).2.1 ++
          (Dockgym.dockRest cg (tmpDir ++ "/ligand.pdb") (tmpDir ++ "/ligand.pdbqt")
            (tmpDir ++ "/vina.log") (tmpDir ++ "/vina.out") (tmpDir ++ "/vina.pdb")
            vinaG pdbqtG confG mol ncpu seedG).2 := by
      simp only [Dockgym.dock]
      rcases hp : (Dockgym.prepareLigand cg input seedG).1 with e | mol
      · exact Or.inl rfl
      · exact Or.inr ⟨mol, rfl⟩
    rcases hd with hd | ⟨mol, hd⟩
    · rw [hd] at hb
      exact absurd hb (dockgym_prepareLigand_no_convert cg input seedG q f b)
    · rw [hd] at hb
      rcases List.mem_append.1 hb with hb | hb
      · exact absurd hb (dockgym_prepareLigand_no_convert cg input seedG q f b)
      · exact dockgym_dockRest_convert_omits_bonding cg _ _ _ _ _ _ _ _ mol ncpu seedG q f b hb

/-- A concrete dockstring collaborator bundle where every external call
succeeds: canonicalization is the identity, the engine exits 0, reading
a PDB yields a molecule with `nconf` conformers, and score parsing yields
the given scores. -/
def dsOkOracles (scores : List Score) (nconf : Nat) : Dockstring.Oracles where
  canonicalize_smiles := fun s => .ok s
  smiles_to_mol := fun _ => .ok ⟨1, false, 0, none⟩
  sanitize_mol := fun m => .ok m
  check_mol := fun _ => .ok ()
  embed_mol := fun m _ => .ok { m with numConformers := 1 }
  refine_mol_with_ff := fun m => .ok m
  protonate_pdb := fun _ => .ok ()
  read_mol_from_pdb := fun _ => .ok ⟨2, false, nconf, none⟩
  convert_pdb_to_pdbqt := fun _ _ => .ok ()
  engine := fun _ => 0
  check_vina_output := fun _ => .ok ()
  convert_pdbqt_to_pdb := fun _ _ _ => .ok ()
  AssignBondOrdersFromTemplate := fun _ m => m
  verify_docked_ligand := fun _ _ => .ok ()
  parse_scores_from_output := fun _ => .ok scores

/-- Witness for C3's amended statement: on concrete successful runs, the
dockstring conversion call carries `some true` and the dockgym one `none`. -/
theorem C3_output_conversion_bonding_witness :
    (some true : Option Bool) = some true ∧ (none : Option Bool) = none :=
  ⟨(C3_output_conversion_bonding (dsOkOracles [-5] 1) (gymOkOracles [-5] 1)
      (fun n => "/tmp/dock" ++ toString n) id "vina" "targets"
      ⟨"abl1", ⟨none, none, 0⟩⟩ "CCO" none 974528263
      "/tmp/d" "vina" "r.pdbqt" "conf.txt" (.descriptor "CCO") (some 1) 974528263).1
      "/tmp/dock0/vina.out" "/tmp/dock0/docked_ligand.pdb" (some true) (by decide),
   (C3_output_conversion_bonding (dsOkOracles [-5] 1) (gymOkOracles [-5] 1)
      (fun n => "/tmp/dock" ++ toString n) id "vina" "targets"
      ⟨"abl1", ⟨none, none, 0⟩⟩ "CCO" none 974528263
      "/tmp/d" "vina" "r.pdbqt" "conf.txt" (.descriptor "CCO") (some 1) 974528263).2
      "/tmp/d/vina.out" "/tmp/d/vina.pdb" none (by decide)⟩

/-- C1 counterexample: a dockstring run that reaches score extraction with
two parsed scores but one recovered pose fails with a bare
`AssertionError` (`assert len(scores) == ligand.GetNumConformers()` at
src/dockstring/dockstring.py:155), not with any `DockingError` subtype:
the `except DockingError` handler is bypassed (nothing is logged). -/
theorem C1_counterexample :
    (Dockstring.dock (dsOkOracles [-5, -4] 1) (fun n => "/tmp/dock" ++ toString n) id
        "vina" "targets" ⟨"abl1", ⟨none, none, 0⟩⟩ "CCO" none 974528263).result =
      .error .assertionError ∧
    (Dockstring.dock (dsOkOracles [-5, -4] 1) (fun n => "/tmp/dock" ++ toString n) id
        "vina" "targets" ⟨"abl1", ⟨none, none, 0⟩⟩ "CCO" none 974528263).log = [] ∧
    PyError.assertionError ≠ PyError.dockingError "Docking with Vina failed" := by
  refine ⟨rfl, rfl, by decide⟩

/-- C1 (amended): in both variants, whenever the pipeline reaches score
extraction and the parsed score count differs from the recovered poses'
conformer count, the run fails with a bare `AssertionError` — which is
not a `DockingError`: dockstring's `except DockingError` handler is
bypassed (the uncaught `AssertionError` is the result and nothing is
logged), and dockgym's handler does not wrap it (the result is the bare
`AssertionError`, not a wrapped `DockingError`). -/
theorem C1_score_count_mismatch_is_bare_assert (c : Dockstring.Oracles)
    (mkTemp : Nat → String) (resolve : String → String)
    (vina targetsDir : String) (t : Dockstring.Target) (smiles : String)
    (ncpus : Option Nat) (seed : Int)
    (cs : String) (mol0 mol1 emb ref prep : Mol) (scores : List Score)
    (cg : Dockgym.Oracles) (tmpDir vinaG pdbqtG confG : String)
    (inputG : Dockgym.MolInput) (ncpuG : Option Nat) (seedG : Int)
    (molg ligands : Mol) (gscores : List Score)
    (h1 : c.canonicalize_smiles smiles = .ok cs)
    (h2 : c.smiles_to_mol cs = .ok mol0)
    (h3 : c.sanitize_mol mol0 = .ok mol1)
    (h4 : c.check_mol mol1 = .ok ())
    (h5 : c.embed_mol mol1 seed = .ok emb)
    (h6 : c.refine_mol_with_ff emb = .ok ref)
    (h7 : ¬ ref.numConformers < 1)
    (h8 : ∀ path, c.protonate_pdb path = .ok ())
    (h9 : ∀ path, c.read_mol_from_pdb path = .ok prep)
    (h10 : ∀ a b, c.convert_pdb_to_pdbqt a b = .ok ())
    (h11 : ∀ cmd, c.engine cmd = 0)
    (h12 : ∀ path, c.check_vina_output path = .ok ())
    (h13 : ∀ a b flag, c.convert_pdbqt_to_pdb a b flag = .ok ())
    (h14 : ∀ a b, c.verify_docked_ligand a b = .ok ())
    (h15 : ∀ path, c.parse_scores_from_output path = .ok scores)
    (hmis : scores.length ≠ (c.AssignBondOrdersFromTemplate prep prep).numConformers)
    (hg1 : (Dockgym.prepareLigand cg inputG seedG).1 = .ok molg)
    (hg2 : ¬ molg.numConformers < 1)
    (hg3 : ∀ a b, cg.convert_pdb_to_pdbqt a b = .ok ())
    (hg4 : ∀ cmd, cg.engine cmd = 0)
    (hg5 : ∀ a b, cg.convert_pdbqt_to_pdb a b = .ok ())
    (hg6 : ∀ p, cg.read_pdb_to_mol p = .ok ligands)
    (hg7 : ∀ p, cg.parse_scores_from_pdb p = .ok gscores)
    (hgmis : gscores.length ≠ ligands.numConformers) :
    (Dockstring.dock c mkTemp resolve vina targetsDir t smiles ncpus seed).result =
      .error .assertionError
  ∧ (Dockstring.dock c mkTemp resolve vina targetsDir t smiles ncpus seed).log = []
  ∧ (Dockgym.dock cg tmpDir vinaG pdbqtG confG inputG ncpuG seedG).1 =
      .error .assertionError := by
  have hTry : (Dockstring.dockTry c (Dockstring.dockPaths mkTemp resolve t.state).1 vina
      (Dockstring.pdbqt_path targetsDir t.name) (Dockstring.conf_path targetsDir t.name)
      smiles ncpus seed).1 = .error .assertionError := by
    simp only [Dockstring.dockTry, Dockstring._dock_pdbqt,
      Dockstring.write_embedded_mol_to_pdb]
    simp [h1, h2, h3, h4, h5, h6, h7, h8, h9, h10, h11, h12, h13, h14, h15, hmis]
  have hgRest : (Dockgym.dockRest cg (tmpDir ++ "/ligand.pdb") (tmpDir ++ "/ligand.pdbqt")
      (tmpDir ++ "/vina.log") (tmpDir ++ "/vina.out") (tmpDir ++ "/vina.pdb")
      vinaG pdbqtG confG molg ncpuG seedG).1 = .error .assertionError := by
    simp only [Dockgym.dockRest, Dockgym._dock_pdbqt, Dockgym._write_embedded_mol_to_pdb]
    simp [hg2, hg3, hg4, hg5, hg6, hg7, hgmis]
  refine ⟨by simpa [Dockstring.dock] using hTry, by simp [Dockstring.dock, hTry], ?_⟩
  simp [Dockgym.dock, hg1, hgRest, Dockgym.wrapError]

/-- Witness for C1's amended statement: one score parsed against two
recovered poses ends in a bare `AssertionError` in both variants —
uncaught and unlogged in dockstring, unwrapped in dockgym. -/
theorem C1_score_count_mismatch_is_bare_assert_witness :
    (Dockstring.dock (dsOkOracles [-3] 2) (fun n => "/tmp/dock" ++ toString n) id
        "vina" "targets" ⟨"abl1", ⟨none, none, 0⟩⟩ "CCO" none 974528263).result =
      .error .assertionError ∧
    (Dockstring.dock (dsOkOracles [-3] 2) (fun n => "/tmp/dock" ++ toString n) id
        "vina" "targets" ⟨"abl1", ⟨none, none, 0⟩⟩ "CCO" none 974528263).log = [] ∧
    (Dockgym.dock (gymOkOracles [-3] 2) "/tmp/d" "vina" "r.pdbqt" "conf.txt"
        (.mol ⟨9, false, 1, none⟩) (some 1) 974528263).1 = .error .assertionError :=
  C1_score_count_mismatch_is_bare_assert (dsOkOracles [-3] 2)
    (fun n => "/tmp/dock" ++ toString n) id "vina" "targets"
    ⟨"abl1", ⟨none, none, 0⟩⟩ "CCO" none 974528263
    "CCO" ⟨1, false, 0, none⟩ ⟨1, false, 0, none⟩ ⟨1, false, 1, none⟩ ⟨1, false, 1, none⟩
    ⟨2, false, 2, none⟩ [-3]
    (gymOkOracles [-3] 2) "/tmp/d" "vina" "r.pdbqt" "conf.txt"
    (.mol ⟨9, false, 1, none⟩) (some 1) 974528263
    ⟨9, false, 1, none⟩ ⟨2, false, 2, none⟩ [-3]
    rfl rfl rfl rfl rfl rfl (by decide) (fun _ => rfl) (fun _ => rfl) (fun _ _ => rfl)
    (fun _ => rfl) (fun _ => rfl) (fun _ _ _ => rfl) (fun _ _ => rfl) (fun _ => rfl)
    (by decide)
    rfl (by decide) (fun _ _ => rfl) (fun _ => rfl) (fun _ _ => rfl) (fun _ => rfl)
    (fun _ => rfl) (by decide)

/-- A concrete dockstring collaborator bundle whose canonicalizer maps the
raw descriptor to a different canonical form and whose parser then fails
with a `DockingError`. -/
def c4Oracles : Dockstring.Oracles where
  canonicalize_smiles := fun _ => .ok "canonY"
  smiles_to_mol := fun _ => .error "parsing failed"
  sanitize_mol := fun m => .ok m
  check_mol := fun _ => .ok ()
  embed_mol := fun m _ => .ok m
  refine_mol_with_ff := fun m => .ok m
  protonate_pdb := fun _ => .ok ()
  read_mol_from_pdb := fun _ => .ok ⟨2, false, 1, none⟩
  convert_pdb_to_pdbqt := fun _ _ => .ok ()
  engine := fun _ => 0
  check_vina_output := fun _ => .ok ()
  convert_pdbqt_to_pdb := fun _ _ _ => .ok ()
  AssignBondOrdersFromTemplate := fun _ m => m
  verify_docked_ligand := fun _ _ => .ok ()
  parse_scores_from_output := fun _ => .ok [-5]

/-- C4 counterexample: when canonicalization maps the raw descriptor
`rawX` to the canonical form `canonY` and a later stage fails, dockstring's
handler logs the raw input descriptor `rawX` (src/dockstring/dockstring.py:163
interpolates the `smiles` argument), not the canonical identity `canonY`. -/
theorem C4_counterexample :
    c4Oracles.canonicalize_smiles "rawX" = .ok "canonY" ∧
    (Dockstring.dock c4Oracles (fun n => "/tmp/dock" ++ toString n) id "vina" "targets"
        ⟨"abl1", ⟨none, none, 0⟩⟩ "rawX" none 974528263).log =
      ["An error occurred for ligand 'rawX': parsing failed"] ∧
    ("An error occurred for ligand 'rawX': parsing failed" : String) ≠
      "An error occurred for ligand 'canonY': parsing failed" := by
  refine ⟨rfl, by decide, by decide⟩

/-- A concrete dockgym collaborator bundle for exercising the error
handler: SMILES parsing succeeds only on "CCO", InChI parsing never,
embedding always fails, and the engine exits 1. -/
def c4GymOracles : Dockgym.Oracles where
  MolFromSmiles := fun s => if s = "CCO" then some ⟨1, false, 0, none⟩ else none
  MolFromInchi := fun _ => none
  embedOk := fun _ _ => false
  MolToSmiles := fun _ => "CCO"
  convert_pdb_to_pdbqt := fun _ _ => .ok ()
  engine := fun _ => 1
  convert_pdbqt_to_pdb := fun _ _ => .ok ()
  read_pdb_to_mol := fun _ => .ok ⟨2, false, 1, none⟩
  parse_scores_from_pdb := fun _ => .ok [-5]

/-- C4 (amended): neither variant swallows a stage failure or returns a
partial result. dockstring catches every `DockingError`, logs a report
naming the molecule by the raw input descriptor (not the canonical
identity), and re-raises the same error unchanged; successful runs and
non-`DockingError` failures log nothing. dockgym catches every
`DockingError` and raises a NEW `DockingError` wrapping it, whose message
names the molecule by its canonical SMILES serialization when the local
variable holds a Mol object (embedding-stage or later failures) and by
the raw input descriptor otherwise (parse-stage failures). -/
theorem C4_error_report_uses_raw_descriptor (c : Dockstring.Oracles)
    (mkTemp : Nat → String) (resolve : String → String)
    (vina targetsDir : String) (t : Dockstring.Target) (smiles : String)
    (ncpus : Option Nat) (seed : Int)
    (cg : Dockgym.Oracles) (tmpDir vinaG pdbqtG confG : String)
    (inputG : Dockgym.MolInput) (ncpuG : Option Nat) (seedG : Int) :
    (Dockstring.dock c mkTemp resolve vina targetsDir t smiles ncpus seed).result =
      (Dockstring.dockTry c (Dockstring.dockPaths mkTemp resolve t.state).1 vina
        (Dockstring.pdbqt_path targetsDir t.name) (Dockstring.conf_path targetsDir t.name)
        smiles ncpus seed).1
  ∧ (∀ m : String,
      (Dockstring.dockTry c (Dockstring.dockPaths mkTemp resolve t.state).1 vina
        (Dockstring.pdbqt_path targetsDir t.name) (Dockstring.conf_path targetsDir t.name)
        smiles ncpus seed).1 = .error (.dockingError m) →
      (Dockstring.dock c mkTemp resolve vina targetsDir t smiles ncpus seed).log =
        [Dockstring.logMessage smiles m])
  ∧ (∀ v, (Dockstring.dockTry c (Dockstring.dockPaths mkTemp resolve t.state).1 vina
        (Dockstring.pdbqt_path targetsDir t.name) (Dockstring.conf_path targetsDir t.name)
        smiles ncpus seed).1 = .ok v →
      (Dockstring.dock c mkTemp resolve vina targetsDir t smiles ncpus seed).log = [])
  ∧ ((Dockstring.dockTry c (Dockstring.dockPaths mkTemp resolve t.state).1 vina
        (Dockstring.pdbqt_path targetsDir t.name) (Dockstring.conf_path targetsDir t.name)
        smiles ncpus seed).1 = .error .assertionError →
      (Dockstring.dock c mkTemp resolve vina targetsDir t smiles ncpus seed).log = [])
  ∧ (∀ (s m : String), inputG = .descriptor s →
      Dockgym._smiles_or_inchi_to_mol cg.MolFromSmiles cg.MolFromInchi s =
        .error (.dockingError m) →
      (Dockgym.dock cg tmpDir vinaG pdbqtG confG inputG ncpuG seedG).1 =
        .error (.dockingError ("An error occurred for ligand '" ++ s ++ "': " ++ m)))
  ∧ (∀ (s : String) (m0 : Mol) (m : String), inputG = .descriptor s →
      Dockgym._smiles_or_inchi_to_mol cg.MolFromSmiles cg.MolFromInchi s = .ok m0 →
      Dockgym._embed_mol cg.embedOk m0 seedG = .error (.dockingError m) →
      (Dockgym.dock cg tmpDir vinaG pdbqtG confG inputG ncpuG seedG).1 =
        .error (.dockingError
          ("An error occurred for ligand '" ++ cg.MolToSmiles m0 ++ "': " ++ m)))
  ∧ (∀ (molv : Mol) (m : String),
      (Dockgym.prepareLigand cg inputG seedG).1 = .ok molv →
      (Dockgym.dockRest cg (tmpDir ++ "/ligand.pdb") (tmpDir ++ "/ligand.pdbqt")
        (tmpDir ++ "/vina.log") (tmpDir ++ "/vina.out") (tmpDir ++ "/vina.pdb")
        vinaG pdbqtG confG molv ncpuG seedG).1 = .error (.dockingError m) →
      (Dockgym.dock cg tmpDir vinaG pdbqtG confG inputG ncpuG seedG).1 =
        .error (.dockingError
          ("An error occurred for ligand '" ++ cg.MolToSmiles molv ++ "': " ++ m))) := by
  refine ⟨rfl, ?_, ?_, ?_, ?_, ?_, ?_⟩
  · intro m hm
    simp [Dockstring.dock, hm]
  · intro v hv
    simp [Dockstring.dock, hv]
  · intro hm
    simp [Dockstring.dock, hm]
  · intro s m hin hparse
    subst hin
    simp [Dockgym.dock, Dockgym.prepareLigand, hparse, Dockgym.wrapError]
  · intro s m0 m hin hparse hembed
    subst hin
    simp [Dockgym.dock, Dockgym.prepareLigand, hparse, hembed, Dockgym.wrapError]
  · intro molv m hprep hrest
    simp [Dockgym.dock, hprep, hrest, Dockgym.wrapError]

/-- Witness for C4's amended statement: dockstring logs a parse-stage
failure with the raw descriptor; dockgym wraps a parse failure naming the
raw descriptor, and wraps an embed failure and an engine failure naming
the canonical SMILES of the Mol held at that point. -/
theorem C4_error_report_uses_raw_descriptor_witness :
    (Dockstring.dock c4Oracles (fun n => "/tmp/dock" ++ toString n) id "vina" "targets"
        ⟨"abl1", ⟨none, none, 0⟩⟩ "rawX" none 974528263).log =
      [Dockstring.logMessage "rawX" "parsing failed"] ∧
    (Dockgym.dock c4GymOracles "/tmp/d" "vina" "r.pdbqt" "conf.txt"
        (.descriptor "xyz") (some 1) 974528263).1 =
      .error (.dockingError
        "An error occurred for ligand 'xyz': Could not parse SMILES or InChI string") ∧
    (Dockgym.dock c4GymOracles "/tmp/d" "vina" "r.pdbqt" "conf.txt"
        (.descriptor "CCO") (some 1) 974528263).1 =
      .error (.dockingError
        "An error occurred for ligand 'CCO': Generation of ligand conformation failed") ∧
    (Dockgym.dock c4GymOracles "/tmp/d" "vina" "r.pdbqt" "conf.txt"
        (.mol ⟨9, false, 1, none⟩) (some 1) 974528263).1 =
      .error (.dockingError
        "An error occurred for ligand 'CCO': Docking with Vina failed") :=
  ⟨(C4_error_report_uses_raw_descriptor c4Oracles (fun n => "/tmp/dock" ++ toString n) id
      "vina" "targets" ⟨"abl1", ⟨none, none, 0⟩⟩ "rawX" none 974528263
      c4GymOracles "/tmp/d" "vina" "r.pdbqt" "conf.txt"
      (.descriptor "xyz") (some 1) 974528263).2.1 "parsing failed" rfl,
   (C4_error_report_uses_raw_descriptor c4Oracles (fun n => "/tmp/dock" ++ toString n) id
      "vina" "targets" ⟨"abl1", ⟨none, none, 0⟩⟩ "rawX" none 974528263
      c4GymOracles "/tmp/d" "vina" "r.pdbqt" "conf.txt"
      (.descriptor "xyz") (some 1) 974528263).2.2.2.2.1
      "xyz" "Could not parse SMILES or InChI string" rfl rfl,
   (C4_error_report_uses_raw_descriptor c4Oracles (fun n => "/tmp/dock" ++ toString n) id
      "vina" "targets" ⟨"abl1", ⟨none, none, 0⟩⟩ "rawX" none 974528263
      c4GymOracles "/tmp/d" "vina" "r.pdbqt" "conf.txt"
      (.descriptor "CCO") (some 1) 974528263).2.2.2.2.2.1
      "CCO" ⟨1, false, 0, none⟩ "Generation of ligand conformation failed" rfl rfl rfl,
   (C4_error_report_uses_raw_descriptor c4Oracles (fun n => "/tmp/dock" ++ toString n) id
      "vina" "targets" ⟨"abl1", ⟨none, none, 0⟩⟩ "rawX" none 974528263
      c4GymOracles "/tmp/d" "vina" "r.pdbqt" "conf.txt"
      (.mol ⟨9, false, 1, none⟩) (some 1) 974528263).2.2.2.2.2.2
      ⟨9, false, 1, none⟩ "Docking with Vina failed" rfl rfl⟩
